import Mathlib

set_option autoImplicit false

/-!
Verification development for the `cstruct` declarative binary-structure
decoding engine (repository `yntha/cstruct`).

The repository contains two historical snapshots of the same engine:

* a monolithic snapshot in `cstruct/__init__.py` (`_CStructLexer`,
  `_collect_metadata`, the `cstruct` decorator), and
* a modular snapshot in `cstruct/_lexer.py` (`CStructLexer`, including
  nested-typedef support), `cstruct/_classwrap.py` (`_gen_superclass`,
  `_make_newclass`) and `cstruct/_metadata.py` (`collect_metadata`).

The definitions below are a shallow embedding of these sources.  Machine
integers are `Int`/`Nat`; Python's exception classes are the explicit
`PyErr` type; the byte stream is a cursor over a list of bytes that also
counts `read` calls (so "the decoder issued a read call" is observable).
Python standard-library behaviour invoked by the sources (`struct.unpack`,
`struct.calcsize`, list indexing, `int(...)`, `enum.Enum.__call__`) is
embedded alongside, restricted to the primitive codes the repository's
grammars use ('B' 'b' 'H' 'h' 'I' 'i' 'Q' 'q' 's', the LEB128 codes
'U' 'V' 'S', and the typedef code 'T'); any other format character is
mapped to `PyErr.structError` exactly as `struct` rejects an unknown code.
-/

/-- Python exception kinds that the decoding engine can surface.
`invalidFormat` is the repository's own typed error class
(`cstruct.InvalidFormat` / `cstruct._exc.InvalidFormat`); the others are
untyped Python runtime exceptions raised by library calls the source makes.
`fuelOut` is an artifact of the embedding's fuel-based recursion and is
never produced when enough fuel is supplied. -/
inductive PyErr where
  | invalidFormat
  | valueError
  | indexError
  | typeError
  | structError
  | attributeError
  | fuelOut
deriving Repr, DecidableEq

/-- A seekable byte reader: the abstraction `CStructLexer` consumes.
`reads` counts the number of `read` calls issued (including zero-length
ones), so that "the decoder performed a read" is a statable property. -/
structure ByteStream where
  data : List Nat
  pos : Nat
  reads : Nat
deriving Repr, DecidableEq

/-- Embeds `stream.read(n)`: Python file semantics — return up to `n` bytes from
the cursor, advance by the number of bytes actually returned. -/
def ByteStream.read (s : ByteStream) (n : Nat) : List Nat × ByteStream :=
  let bs := (s.data.drop s.pos).take n
  (bs, { s with pos := s.pos + bs.length, reads := s.reads + 1 })

/-- Embeds `stream.tell()`. -/
def ByteStream.tell (s : ByteStream) : Nat := s.pos

/-- Embeds `stream.seek(p, 0)` (SEEK_SET). -/
def ByteStream.seek (s : ByteStream) (p : Nat) : ByteStream := { s with pos := p }

/-- A decoded raw value, as stored in the lexer's `values` list or in a
record attribute: a Python int, a bytes object, `None`, the per-element
triple list built for a variable array, a fully constructed nested record
(field name bound to its converted value), or a plain Python list (the
value a variable-array field is replaced by during metadata collection). -/
inductive RawVal where
  | int (n : Int)
  | bytes (bs : List Nat)
  | none_
  | varlist (items : List (RawVal × List Char × Nat))
  | nested (binds : List (String × RawVal))
  | pylist (vs : List RawVal)

/-- One element of the lexer's `values` list: `[value, format, size]`. -/
abbrev Entry := RawVal × List Char × Nat

/-- Embeds `ULEB128_FORMAT_CH`. -/
def ULEB128_FORMAT_CH : Char := 'U'
/-- Embeds `ULEB128P1_FORMAT_CH = chr(ord('U') + 1)`. -/
def ULEB128P1_FORMAT_CH : Char := 'V'
/-- Embeds `SLEB128_FORMAT_CH`. -/
def SLEB128_FORMAT_CH : Char := 'S'
/-- Embeds `TYPEDEF_FORMAT_CH`. -/
def TYPEDEF_FORMAT_CH : Char := 'T'

/-- Width in bytes of one element of a `struct` format code, for the codes
in the model's universe (`struct.calcsize` of the bare code).  Unknown
codes give `none`, which the embedding turns into `PyErr.structError`. -/
def primWidth (c : Char) : Option Nat :=
  if c = 'B' ∨ c = 'b' then some 1
  else if c = 'H' ∨ c = 'h' then some 2
  else if c = 'I' ∨ c = 'i' then some 4
  else if c = 'Q' ∨ c = 'q' then some 8
  else if c = 's' then some 1
  else none

/-- Signed `struct` codes (two's-complement interpretation). -/
def isSignedCode (c : Char) : Bool :=
  c = 'b' ∨ c = 'h' ∨ c = 'i' ∨ c = 'q'

/-- Embeds `struct.calcsize(f"{n}{c}")` for a nonnegative repeat `n`: a byte-string
code counts `n` bytes total, a numeric code `n` elements of its width. -/
def structCalcsize (n : Nat) (c : Char) : Option Nat :=
  match primWidth c with
  | none => none
  | some w => some (if c = 's' then n else n * w)

/-- Little-endian value of a byte list. -/
def leVal (bs : List Nat) : Nat :=
  bs.foldr (fun b acc => b + 256 * acc) 0

/-- Big-endian value of a byte list. -/
def beVal (bs : List Nat) : Nat :=
  bs.foldl (fun acc b => acc * 256 + b) 0

/-- Decode one fixed-width integer element from its `w` bytes, honoring
byte order and signedness. -/
def decodeIntBytes (little : Bool) (c : Char) (w : Nat) (bs : List Nat) : Int :=
  let u : Nat := if little then leVal bs else beVal bs
  if isSignedCode c then
    if u < 2 ^ (8 * w - 1) then (u : Int) else (u : Int) - 2 ^ (8 * w)
  else (u : Int)

/-- Embeds `struct.unpack(order + f"{n}{c}", buf)[0]` — unpack then take the first
tuple element, exactly as both snapshots of `parse` do.  `struct.error`
when the buffer length differs from `calcsize`, and `IndexError` when the
tuple is empty (repeat `0` with a numeric code). -/
def structUnpackFirst (little : Bool) (n : Nat) (c : Char) (buf : List Nat) :
    Except PyErr RawVal :=
  match structCalcsize n c with
  | none => .error .structError
  | some sz =>
    if buf.length ≠ sz then .error .structError
    else if c = 's' then .ok (.bytes buf)
    else if n = 0 then .error .indexError
    else
      match primWidth c with
      | none => .error .structError
      | some w => .ok (.int (decodeIntBytes little c w (buf.take w)))

mutual

/-- Field type tags, mutually recursive with schemas because a field may be
declared with a nested schema's wrapped class as its type.  `plain` covers
ordinary scalar/bytes fields; `enumTy` models a field annotated with an
`enum.Enum` subclass, carrying the enumeration's member values and the
value its `_missing_` hook returns (`none` when the enum defines no such
hook); `nestedTy` models a field annotated with a wrapped (classwrapper)
type. -/
inductive FieldTy where
  | plain
  | enumTy (constants : List Int) (missingSentinel : Option Int)
  | nestedTy (sub : SchemaT)

/-- A schema mirrors what a wrapped class carries: its source-class name,
its `dataclasses.fields` list, `primitive_format` and `data_byte_order`. -/
inductive SchemaT where
  | mk (name : String) (fields : List (String × FieldTy)) (grammar : List Char)
      (little : Bool)

end

/-- Source-class name of a schema. -/
def SchemaT.name : SchemaT → String
  | .mk n _ _ _ => n

/-- Embeds `dataclasses.fields(struct_class)`: the stored fields, in order. -/
def SchemaT.fields : SchemaT → List (String × FieldTy)
  | .mk _ f _ _ => f

/-- Embeds `struct_class.primitive_format`. -/
def SchemaT.grammar : SchemaT → List Char
  | .mk _ _ g _ => g

/-- Embeds `struct_class.data_byte_order == "little"`. -/
def SchemaT.little : SchemaT → Bool
  | .mk _ _ _ l => l

/-- Embeds `repr(t).startswith("<class 'cstruct.classwrapper.")`: true exactly for
wrapped (nested-schema) classes, via `ClassWrapperMeta.__repr__`. -/
def FieldTy.isNested : FieldTy → Bool
  | .nestedTy _ => true
  | _ => false

/-- The mutable state of a `CStructLexer` instance: the format string, the
byte order, the stream, the character cursor `pos`, the accumulated
`values` list, and the owning `struct_class` (used by typedef lookup). -/
structure LexState where
  dataFormat : List Char
  littleOrder : Bool
  stream : ByteStream
  pos : Nat
  values : List Entry
  structClass : SchemaT

/-- Embeds `CStructLexer.__init__` before `parse` runs: cursor 0, empty values. -/
def mkLexState (sc : SchemaT) (s : ByteStream) : LexState :=
  { dataFormat := sc.grammar, littleOrder := sc.little, stream := s,
    pos := 0, values := [], structClass := sc }

/-- The lexer's output unit (`CStructLexer._Token`): the repeat count is
whatever Python value a back-reference resolved to (an `Int` for literal
digit tokens), plus the format character and the variable-array flag. -/
structure Token where
  repeatCount : RawVal
  formatCh : Char
  vararr : Bool

/-- Embeds `_Token.is_leb128`: raises the repository's `InvalidFormat` whenever
the pyleb128 bridge is absent — before even looking at the format
character — and otherwise reports whether the character is a LEB128 code. -/
def is_leb128 (hasLeb : Bool) (c : Char) : Except PyErr Bool :=
  if hasLeb then
    .ok (c = ULEB128_FORMAT_CH ∨ c = ULEB128P1_FORMAT_CH ∨ c = SLEB128_FORMAT_CH)
  else .error .invalidFormat

/-- Embeds `_next_literal`: one character at the cursor; Python string indexing
raises `IndexError` past the end. -/
def next_literal (st : LexState) : Except PyErr (Char × LexState) :=
  match st.dataFormat.get? st.pos with
  | some c => .ok (c, { st with pos := st.pos + 1 })
  | none => .error .indexError

/-- The `while (token := self._next_literal()) != ")"` loop of
`_next_token`, over the remaining characters: the collected digit buffer
and the number of characters consumed including the closing parenthesis.
Running out of characters is the loop's `IndexError`. -/
def splitUntilRP : List Char → Except PyErr (List Char × Nat)
  | [] => .error .indexError
  | c :: rest =>
    if c = ')' then .ok ([], 1)
    else
      match splitUntilRP rest with
      | .error e => .error e
      | .ok (ds, k) => .ok (c :: ds, k + 1)

/-- The `while (token := self._next_literal()).isdigit()` loop of
`_next_token`: further digits, the terminating format character, and the
characters consumed.  Exhausting the string raises `IndexError`. -/
def takeDigitsLoop : List Char → Except PyErr (List Char × Char × Nat)
  | [] => .error .indexError
  | c :: rest =>
    if c.isDigit then
      match takeDigitsLoop rest with
      | .error e => .error e
      | .ok (ds, f, k) => .ok (c :: ds, f, k + 1)
    else .ok ([], c, 1)

/-- Numeric value of a nonempty digit string. -/
def natOfDigits (ds : List Char) : Nat :=
  ds.foldl (fun a c => a * 10 + (c.toNat - 48)) 0

/-- Python `int(string)`: optional sign followed by at least one digit;
anything else (including the empty string) raises `ValueError`. -/
def pythonInt (ds : List Char) : Except PyErr Int :=
  match ds with
  | [] => .error .valueError
  | '-' :: rest =>
    if rest ≠ [] ∧ rest.all Char.isDigit then .ok (-(natOfDigits rest : Int))
    else .error .valueError
  | '+' :: rest =>
    if rest ≠ [] ∧ rest.all Char.isDigit then .ok (natOfDigits rest : Int)
    else .error .valueError
  | _ =>
    if ds.all Char.isDigit then .ok (natOfDigits ds : Int)
    else .error .valueError

/-- Python list indexing `l[i]`, with negative indices counting from the
end and `IndexError` out of range. -/
def pyListGet (l : List Entry) (i : Int) : Except PyErr Entry :=
  let j : Int := if i < 0 then (l.length : Int) + i else i
  if j < 0 then .error .indexError
  else
    match l.get? j.toNat with
    | some x => .ok x
    | none => .error .indexError

/-- Embeds `CStructLexer._next_token`: a parenthesized back-reference resolves its
repeat count from the already-decoded `values` list (code `'s'` yielding a
plain token, any other code a variable-array token); a leading digit run
is a literal repeat; otherwise a bare one-element token.  A `(` as the
very first grammar character raises the typed `InvalidFormat`. -/
def next_token (st0 : LexState) : Except PyErr (Token × LexState) :=
  match next_literal st0 with
  | .error e => .error e
  | .ok (t, st1) =>
    if t = '(' then
      if st1.pos = 1 then .error .invalidFormat
      else
        match splitUntilRP (st1.dataFormat.drop st1.pos) with
        | .error e => .error e
        | .ok (ds, k) =>
          let st2 := { st1 with pos := st1.pos + k }
          match next_literal st2 with
          | .error e => .error e
          | .ok (vf, st3) =>
            match pythonInt ds with
            | .error e => .error e
            | .ok idx =>
              match pyListGet st3.values idx with
              | .error e => .error e
              | .ok entry =>
                if vf = 's' then .ok (⟨entry.1, vf, false⟩, st3)
                else .ok (⟨entry.1, vf, true⟩, st3)
    else if t.isDigit then
      match takeDigitsLoop (st1.dataFormat.drop st1.pos) with
      | .error e => .error e
      | .ok (ds, f, k) =>
        .ok (⟨.int (natOfDigits (t :: ds) : Int), f, false⟩, { st1 with pos := st1.pos + k })
    else .ok (⟨.int 1, t, false⟩, st1)

/-- Embeds `token.repeat_count == 0` in Python: only the integer zero compares
equal to `0` among the values a decode can produce. -/
def rawEqZero : RawVal → Bool
  | .int n => n = 0
  | _ => false

/-- Embeds `f"{repeat_count}{format_ch}"` (`_Token.struct_format`), used as the
stored format label.  A non-integer repeat would stringify to its Python
repr; no successful append ever stores such a label (the decode fails
first), so its exact text is irrelevant and rendered as `?`. -/
def fmtString (r : RawVal) (c : Char) : List Char :=
  match r with
  | .int n => (toString n).toList ++ [c]
  | _ => ['?', c]

/-- Number of bytes the next LEB128 value at the cursor would occupy, `0`
at end of stream.  Modelled from the pyleb128 bridge contract
(`peek_size`): LEB128 continuation bytes have the high bit set and the
final byte clears it. -/
def lebPeekSizeAux : List Nat → Nat
  | [] => 0
  | b :: r => if b < 128 then 1 else 1 + lebPeekSizeAux r

/-- Embeds `uleb128.peek_size(stream)` / `sleb128.peek_size(stream)`. -/
def lebPeekSize (s : ByteStream) : Nat :=
  lebPeekSizeAux (s.data.drop s.pos)

/-- Unsigned base-128 value of an encoded byte group (7 data bits per
byte, least significant group first). -/
def lebValue (bs : List Nat) : Nat :=
  bs.foldr (fun b acc => (b % 128) + 128 * acc) 0

/-- Embeds `CStructLexer._read_leb128`, through the pyleb128 bridge contract:
peek the encoded length; when it is `0` return a zero-valued placeholder
of size `0` without touching the stream, otherwise decode and advance.
`'U'` is unsigned, `'V'` unsigned-plus-one (the stored value is the
payload plus one), `'S'` signed (sign-extended from the top data bit).
The function is only ever called with one of these three codes. -/
def read_leb128 (s : ByteStream) (c : Char) : Except PyErr (Entry × ByteStream) :=
  let sz := lebPeekSize s
  if c = ULEB128_FORMAT_CH then
    if sz = 0 then .ok ((.int 0, [c], 0), s)
    else
      let (buf, s') := s.read sz
      .ok ((.int (lebValue buf : Int), [c], sz), s')
  else if c = ULEB128P1_FORMAT_CH then
    if sz = 0 then .ok ((.int 0, [c], 0), s)
    else
      let (buf, s') := s.read sz
      .ok ((.int ((lebValue buf : Int) - 1), [c], sz), s')
  else if c = SLEB128_FORMAT_CH then
    if sz = 0 then .ok ((.int 0, [c], 0), s)
    else
      let (buf, s') := s.read sz
      let u := lebValue buf
      let v : Int := if u < 2 ^ (7 * sz - 1) then (u : Int) else (u : Int) - 2 ^ (7 * sz)
      .ok ((.int v, [c], sz), s')
  else .error .typeError

/-- Embeds `CStructLexer.get_typdef_type`: the declared type of the dataclass
field at index `self.pos - 1`; Python list indexing raises `IndexError`
when the grammar position has no matching field. -/
def get_typdef_type (st : LexState) : Except PyErr (String × FieldTy) :=
  match st.structClass.fields.get? (st.pos - 1) with
  | some f => .ok f
  | none => .error .indexError

/-- Embeds `CStructLexer.check_typedef`:
`repr(typedef_type).startswith("<class 'cstruct.classwrapper.")` — true
exactly when the field's declared type is a wrapped class. -/
def check_typedef (st : LexState) : Except PyErr Bool :=
  match get_typdef_type st with
  | .error e => .error e
  | .ok (_, fty) => .ok fty.isNested

/-- The class-level attributes `_make_newclass` installs on every wrapped
class (`cstruct/_classwrap.py`): the source class, the composed format,
the byte order, and the `meta`/`length` members added by
`__post_init__`/the `length` property.  No attribute named `_lexer` is
ever defined. -/
def newclassAttrs : List String :=
  ["_source_class", "primitive_format", "data_byte_order", "meta", "length"]

/-- Embeds `getattr(field.type, "_lexer")` followed by `.pad_bytes` in
`collect_metadata`: a lookup of an attribute absent from `newclassAttrs`
raises `AttributeError`.  (The `.ok` branch would return the lexer's pad
count; it is unreachable because no wrapped class defines `_lexer`.) -/
def getattrLexerPadBytes : Except PyErr Nat :=
  match newclassAttrs.find? (fun a => a = "_lexer") with
  | some _ => .ok 0
  | none => .error .attributeError

/-- Embeds `enum.Enum.__call__(value)` (Python stdlib semantics, as invoked by
`field.type(field_value)` in both metadata collectors): a value equal to
some member's value maps to that member; otherwise `_missing_` is
consulted — an enum defining the hook resolves to its sentinel member,
one without it raises `ValueError`. -/
def pyEnumCall (constants : List Int) (missingSentinel : Option Int)
    (v : RawVal) : Except PyErr RawVal :=
  match v with
  | .int n =>
    if n ∈ constants then .ok (.int n)
    else
      match missingSentinel with
      | some s => .ok (.int s)
      | none => .error .valueError
  | _ =>
    match missingSentinel with
    | some s => .ok (.int s)
    | none => .error .valueError

/-- The `T[<TypeName>(<nested grammar>)]` format label `collect_metadata`
renders for a nested-record field. -/
def nestedLabel (s : SchemaT) : List Char :=
  'T' :: '[' :: s.name.toList ++ '(' :: s.grammar ++ [')', ']']

/-- The per-item loop of `collect_metadata`'s list branch:
`field.type(item[0])` for an enum-typed field, else `item[0]`. -/
def convItems (fty : FieldTy) : List (RawVal × List Char × Nat) →
    Except PyErr (List RawVal)
  | [] => .ok []
  | (iv, _, _) :: rest =>
    match fty with
    | .enumTy cs ms =>
      match pyEnumCall cs ms iv with
      | .error e => .error e
      | .ok cv =>
        match convItems fty rest with
        | .error e => .error e
        | .ok cvs => .ok (cv :: cvs)
    | _ =>
      match convItems fty rest with
      | .error e => .error e
      | .ok cvs => .ok (iv :: cvs)

/-- The body of `collect_metadata` (`cstruct/_metadata.py`) for one
non-`None` field triple: the classwrapper-type check (which reads the
absent `_lexer` attribute), then the list / enum / plain conversion,
returning the metadata label, size, and the converted value stored back
on the record. -/
def processField (fty : FieldTy) (v : RawVal) (fmt : List Char) (size : Nat) :
    Except PyErr (List Char × Nat × RawVal) :=
  match fty with
  | .nestedTy sub =>
    match getattrLexerPadBytes with
    | .error e => .error e
    | .ok pad => .ok (nestedLabel sub, size + pad, v)
  | _ =>
    match v with
    | .varlist items =>
      match convItems fty items with
      | .error e => .error e
      | .ok cvs => .ok (fmt, size, .pylist cvs)
    | _ =>
      match fty with
      | .enumTy cs ms =>
        match pyEnumCall cs ms v with
        | .error e => .error e
        | .ok cv => .ok (fmt, size, cv)
      | _ => .ok (fmt, size, v)

/-- Embeds `collect_metadata(class_obj)` over the record's fields paired with
their constructor triples (`None` for a field that received no value,
which the loop skips).  Returns the metadata items (name, format label,
size, converted value) and the final attribute binding of every field. -/
def collect_metadata :
    List (String × FieldTy × Option Entry) →
    Except PyErr (List (String × List Char × Nat × RawVal) × List (String × RawVal))
  | [] => .ok ([], [])
  | (nm, _, none) :: rest =>
    match collect_metadata rest with
    | .error e => .error e
    | .ok (ms, bs) => .ok (ms, (nm, .none_) :: bs)
  | (nm, fty, some (v, fmt, size)) :: rest =>
    match processField fty v fmt size with
    | .error e => .error e
    | .ok (fmt', size', cv) =>
      match collect_metadata rest with
      | .error e => .error e
      | .ok (ms, bs) => .ok ((nm, fmt', size', cv) :: ms, (nm, cv) :: bs)

/-- The plain-primitive arm of `parse` (both snapshots, e.g.
`cstruct/_lexer.py` lines 153-162):
`struct.unpack(order + token.struct_format, stream.read(calcsize))[0]`,
appended with the single format character and the full `calcsize` as the
stored size.  The repeat count is the token's resolved value: a
non-integer or negative repeat makes `struct.calcsize` reject the format
string. -/
def readPlainToken (little : Bool) (r : RawVal) (c : Char) (s : ByteStream) :
    Except PyErr (RawVal × Nat × ByteStream) :=
  match r with
  | .int n =>
    if n < 0 then .error .structError
    else
      match structCalcsize n.toNat c with
      | none => .error .structError
      | some sz =>
        let (buf, s') := s.read sz
        match structUnpackFirst little n.toNat c buf with
        | .error e => .error e
        | .ok v => .ok (v, sz, s')
  | _ => .error .structError

/-- One variable-array element through the struct module (the `else` arm
of the per-element loop): `item_size = calcsize(format_ch)` and
`unpack(order + format_ch, stream.read(item_size))[0]`. -/
def readElem (little : Bool) (c : Char) (s : ByteStream) :
    Except PyErr (RawVal × Nat × ByteStream) :=
  match primWidth c with
  | none => .error .structError
  | some w =>
    let (buf, s') := s.read w
    match structUnpackFirst little 1 c buf with
    | .error e => .error e
    | .ok v => .ok (v, w, s')

/-- Embeds `typedef(self.stream)`: constructing a wrapped-class instance runs
`newclass.__new__`, which calls `CStructLexer.parse_struct(cls, stream,
offset=-1)` (record the position, lex the nested grammar, seek back to
the recorded position, zip field names with values), then `__init__`
binds the returned triples (a dataclass constructor: `zip` silently drops
surplus values, while missing fields raise `TypeError`), and
`__post_init__` runs `collect_metadata`.  The `length` the outer lexer
stores is the sum of the metadata sizes.  `recur` is the lexer run on the
nested schema, supplied by `runParse`. -/
def typedefInstantiate (recur : LexState → Except PyErr LexState)
    (inner : SchemaT) (s : ByteStream) : Except PyErr (RawVal × Nat × ByteStream) :=
  let streamPos := s.tell
  match recur (mkLexState inner s) with
  | .error e => .error e
  | .ok st' =>
    let restored := st'.stream.seek streamPos
    if st'.values.length < inner.fields.length then .error .typeError
    else
      let bound := inner.fields.zip st'.values
      match collect_metadata (bound.map fun fe => (fe.1.1, fe.1.2, some fe.2)) with
      | .error e => .error e
      | .ok (metas, binds) =>
        let len := (metas.map fun m => m.2.2.1).sum
        .ok (.nested binds, len, restored)

/-- The `for _ in range(token.repeat_count)` loop of the variable-array
arm of `parse`: per element, `is_leb128` first (raising when the bridge
is absent), then the typedef test, then a plain struct element; each
iteration appends its `[value, format, size]` triple and accumulates the
size sum.  `st` supplies the grammar position and owning class for the
typedef test; the stream is threaded explicitly. -/
def vararrLoop (hasLeb : Bool) (recur : LexState → Except PyErr LexState)
    (st : LexState) (c : Char) :
    Nat → ByteStream → Except PyErr (List (RawVal × List Char × Nat) × Nat × ByteStream)
  | 0, s => .ok ([], 0, s)
  | k + 1, s =>
    let elemStep : Except PyErr ((RawVal × List Char × Nat) × ByteStream) :=
      match is_leb128 hasLeb c with
      | .error e => .error e
      | .ok true =>
        match read_leb128 s c with
        | .error e => .error e
        | .ok (entry, s') => .ok (entry, s')
      | .ok false =>
        if c = TYPEDEF_FORMAT_CH then
          match check_typedef st with
          | .error e => .error e
          | .ok true =>
            match get_typdef_type st with
            | .error e => .error e
            | .ok (_, .nestedTy inner) =>
              match typedefInstantiate recur inner s with
              | .error e => .error e
              | .ok (rv, len, s') => .ok ((rv, inner.grammar, len), s')
            | .ok (_, _) => .error .typeError
          | .ok false =>
            match readElem st.littleOrder c s with
            | .error e => .error e
            | .ok (v, w, s') => .ok ((v, [c], w), s')
        else
          match readElem st.littleOrder c s with
          | .error e => .error e
          | .ok (v, w, s') => .ok ((v, [c], w), s')
    match elemStep with
    | .error e => .error e
    | .ok (entry, s') =>
      match vararrLoop hasLeb recur st c k s' with
      | .error e => .error e
      | .ok (items, sum, s'') => .ok (entry :: items, entry.2.2 + sum, s'')

/-- One iteration of the `while self._has_tokens()` loop of
`CStructLexer.parse`: pull the next token and dispatch on it —
variable-array (zero repeat appends the `None` placeholder and consumes
nothing; otherwise `range` requires an integer repeat and the element
loop runs), nested typedef, LEB128, or plain primitive.  `recur` performs
a full nested lexer run for typedef tokens. -/
def stepOnce (hasLeb : Bool) (recur : LexState → Except PyErr LexState)
    (st0 : LexState) : Except PyErr LexState :=
  match next_token st0 with
  | .error e => .error e
  | .ok (tok, st) =>
    if tok.vararr then
      if rawEqZero tok.repeatCount then
        .ok { st with values := st.values ++ [(.none_, [tok.formatCh], 0)] }
      else
        match tok.repeatCount with
        | .int n =>
          match vararrLoop hasLeb recur st tok.formatCh n.toNat st.stream with
          | .error e => .error e
          | .ok (items, sumSize, stream') =>
            .ok { st with
                    stream := stream',
                    values := st.values ++
                      [(.varlist items, fmtString tok.repeatCount tok.formatCh, sumSize)] }
        | _ => .error .typeError
    else if tok.formatCh = TYPEDEF_FORMAT_CH then
      match check_typedef st with
      | .error e => .error e
      | .ok false => .error .invalidFormat
      | .ok true =>
        match get_typdef_type st with
        | .error e => .error e
        | .ok (_, .nestedTy inner) =>
          match typedefInstantiate recur inner st.stream with
          | .error e => .error e
          | .ok (rv, len, stream') =>
            .ok { st with
                    stream := stream',
                    values := st.values ++ [(rv, inner.grammar, len)] }
        | .ok (_, _) => .error .typeError
    else
      match is_leb128 hasLeb tok.formatCh with
      | .error e => .error e
      | .ok true =>
        match read_leb128 st.stream tok.formatCh with
        | .error e => .error e
        | .ok (entry, stream') =>
          .ok { st with stream := stream', values := st.values ++ [entry] }
      | .ok false =>
        match readPlainToken st.littleOrder tok.repeatCount tok.formatCh st.stream with
        | .error e => .error e
        | .ok (v, sz, stream') =>
          .ok { st with
                  stream := stream',
                  values := st.values ++ [(v, [tok.formatCh], sz)] }

/-- Embeds `CStructLexer.parse`: iterate `stepOnce` while characters remain.
Fuel bounds the total number of loop iterations across all nesting
levels; `PyErr.fuelOut` never occurs with fuel beyond the grammar sizes
involved. -/
def runParse (hasLeb : Bool) : Nat → LexState → Except PyErr LexState
  | 0, _ => .error .fuelOut
  | fuel + 1, st =>
    if st.pos < st.dataFormat.length then
      match stepOnce hasLeb (runParse hasLeb fuel) st with
      | .error e => .error e
      | .ok st' => runParse hasLeb fuel st'
    else .ok st

/-- Embeds `CStructLexer.parse_struct(struct_class, stream, offset)`: record the
stream position, seek to a supplied nonnegative offset, run the lexer,
seek back to the recorded position, and zip the dataclass field names
with the decoded values (Python's `zip` stops at the shorter list).
`stream_pos = stream.tell()` is recorded at entry; the Lean `stream`
argument is immutable, so `stream.tell` in the final seek is exactly that
recorded entry position. -/
def parse_struct (sc : SchemaT) (stream : ByteStream) (offset : Int)
    (hasLeb : Bool) (fuel : Nat) :
    Except PyErr (List (String × Entry) × ByteStream) :=
  match runParse hasLeb fuel
      (mkLexState sc (if offset > -1 then stream.seek offset.toNat else stream)) with
  | .error e => .error e
  | .ok st =>
    .ok ((sc.fields.map Prod.fst).zip st.values, st.stream.seek stream.tell)

/-- The kind of a class annotation as `_gen_superclass`
(`cstruct/_classwrap.py`) distinguishes them: an ordinary field
annotation, a `dataclasses.InitVar[...]` annotation, or the bare
`typing.ClassVar` annotation (the two synthetic, init-only/class-variable
kinds its filter removes). -/
inductive AnnKind where
  | plain
  | initVar
  | classVar
deriving Repr, DecidableEq

/-- One entry of a class `__annotations__` dict: field name and kind. -/
structure Ann where
  name : String
  kind : AnnKind
deriving Repr, DecidableEq

/-- A synthetic (init-only or class-variable) annotation: holds no decoded
bytes and is skipped by `dataclasses.fields`. -/
def Ann.synthetic (a : Ann) : Bool :=
  a.kind ≠ AnnKind.plain

/-- Python `dict.update` on annotation dicts: existing keys keep their
position and take the new value, new keys are appended in their order. -/
def dictUpdate (b own : List Ann) : List Ann :=
  (b.map fun a =>
    match own.find? (fun o => o.name = a.name) with
    | some o => o
    | none => a) ++
  own.filter (fun o => !(b.any (fun a => a.name = o.name)))

/-- The annotation merge of `_gen_superclass` (`cstruct/_classwrap.py`
lines 31-57): with a base class, the base source class's annotations
updated with the subclass's own, then — because `cls.__base__ is not
object` — every `InitVar`/`ClassVar` annotation is removed; with no base,
the class's own annotations unchanged (no filter runs). -/
def gen_superclass_annotations (baseAnns : Option (List Ann)) (own : List Ann) :
    List Ann :=
  match baseAnns with
  | none => own
  | some b => (dictUpdate b own).filter (fun a => !a.synthetic)

/-- The grammar composition of the `cstruct` decorator
(`cstruct/__init__.py` lines 116-122): when the decorated class's base
carries a `primitive_format`, the composed format is the base format
followed by the decorated class's own fragment. -/
def composePrimitiveFormat (baseFormat : Option (List Char)) (frag : List Char) :
    List Char :=
  match baseFormat with
  | some g => g ++ frag
  | none => frag

/-- Embeds `dataclasses.fields` of a class with the given annotations: only
non-synthetic annotations become dataclass fields. -/
def dataclassFields (anns : List Ann) : List Ann :=
  anns.filter (fun a => !a.synthetic)

/-- Whether an `Except` result is a success. -/
def exceptIsOk {α : Type} : Except PyErr α → Bool
  | .ok _ => true
  | .error _ => false

/-- Observable outcome of a lexer run: the `values` list, the stream
cursor, and the number of read calls issued. -/
def lexResult (r : Except PyErr LexState) : Except PyErr (List Entry × Nat × Nat) :=
  match r with
  | .error e => .error e
  | .ok st => .ok (st.values, st.stream.pos, st.stream.reads)

/-- Observable outcome of `parse_struct`: the name-to-triple binding list,
the final stream cursor, and the number of read calls issued. -/
def psResult (r : Except PyErr (List (String × Entry) × ByteStream)) :
    Except PyErr (List (String × Entry) × Nat × Nat) :=
  match r with
  | .error e => .error e
  | .ok (bs, s) => .ok (bs, s.pos, s.reads)

/-- A fresh stream over the given bytes: cursor 0, no reads issued. -/
def mkStream (bs : List Nat) : ByteStream :=
  ⟨bs, 0, 0⟩

/-! ## Claim fixtures -/

/-- C1 fixture: a one-field schema with grammar `3I`, little-endian. -/
def c1_schema : SchemaT :=
  .mk "C1" [("a", .plain)] "3I".toList true

/-- C1 fixture: the twelve bytes 01 00 00 00 02 00 00 00 03 00 00 00. -/
def c1_stream : ByteStream :=
  mkStream [1,0,0,0, 2,0,0,0, 3,0,0,0]

/-- C2 fixture: the nested schema, one plain byte field, grammar `B`. -/
def c2_inner : SchemaT :=
  .mk "Inner" [("f", .plain)] "B".toList true

/-- C2 fixture: the outer schema — a nested-record field then a plain byte
field, grammar `TB`. -/
def c2_outer : SchemaT :=
  .mk "Outer" [("inner", .nestedTy c2_inner), ("x", .plain)] "TB".toList true

/-- C2 fixture: bytes AA BB — the nested record consumes AA, the outer
`x` field should then see BB. -/
def c2_stream : ByteStream :=
  mkStream [0xAA, 0xBB]

/-- C3 fixture: a LEB-free one-field schema with grammar `B`. -/
def c3_schema : SchemaT :=
  .mk "C3" [("a", .plain)] "B".toList true

/-- C3 fixture: one byte. -/
def c3_stream : ByteStream :=
  mkStream [5]

/-- C5 fixture: one declared field but a grammar decoding two values. -/
def c5_schema : SchemaT :=
  .mk "C5" [("a", .plain)] "BB".toList true

/-- C5 fixture: two bytes. -/
def c5_stream : ByteStream :=
  mkStream [1, 2]

/-- C6 fixture: a schema around the given grammar (fields are irrelevant
to back-reference lexing). -/
def c6_schema (g : List Char) : SchemaT :=
  .mk "C6" [] g true

/-- C6 fixture: input bytes for the malformed-grammar runs. -/
def c6_stream : ByteStream :=
  mkStream [65, 66, 67, 68, 1, 2, 3, 4]

/-! ## Theorems -/

/-- C1: the spec claims a literal-repeat token `3I` over bytes
01 00 00 00 02 00 00 00 03 00 00 00 appends three independent entries
1, 2, 3.  Evaluating the embedded `parse` at exactly this input shows the
code appends ONE entry — `[struct.unpack(...)[0]]` keeps only the first
element — with raw value 1, format `I` and byte size 12; the elements 2
and 3 are read (the cursor ends at 12) but discarded. -/
theorem c1_literal_repeat_single_entry :
    lexResult (runParse true 10 (mkLexState c1_schema c1_stream)) =
      .ok ([(.int 1, ['I'], 12)], 12, 1) := rfl

/-- C2: the spec claims that after a nested-type token the outer reader
cursor stands immediately after the nested record's bytes.  Evaluating
the embedding: `typedefInstantiate` (the `typedef(self.stream)` call)
returns the stream rewound to position 0 — the position BEFORE the nested
record — because `parse_struct` unconditionally seeks back; consequently
the outer decode of grammar `TB` over bytes AA BB binds `x` to 0xAA = 170
(re-reading the nested record's byte) instead of 0xBB. -/
theorem c2_nested_decode_rewinds :
    (typedefInstantiate (runParse true 10) c2_inner c2_stream).map
        (fun r => r.2.2.pos) = .ok 0 ∧
    psResult (parse_struct c2_outer c2_stream (-1) true 20) =
      .ok ([("inner", (.nested [("f", .int 170)], ['B'], 1)),
            ("x", (.int 170, ['B'], 1))], 0, 2) :=
  ⟨rfl, rfl⟩

/-- C3: the spec claims that with the pyleb128 bridge unavailable, a
grammar containing no LEB128 code still decodes, and only LEB-requesting
decodes fail (with a distinct error kind).  Evaluating the embedding on
the LEB-free grammar `B`: with the bridge absent the decode fails with
`InvalidFormat` — `_Token.is_leb128` raises before inspecting the format
character, and `parse` calls it for every non-typedef token — the same
exception class used for grammar-syntax errors; with the bridge present
the same decode succeeds. -/
theorem c3_bridge_absent_every_decode_fails :
    lexResult (runParse false 10 (mkLexState c3_schema c3_stream)) =
      .error .invalidFormat ∧
    lexResult (runParse true 10 (mkLexState c3_schema c3_stream)) =
      .ok ([(.int 5, ['B'], 1)], 1, 1) :=
  ⟨rfl, rfl⟩

/-- C5: the spec claims a decoded-value/field count mismatch fails with a
schema-mismatch error.  Evaluating the embedded `parse_struct` on a
one-field schema whose grammar decodes two values: the call SUCCEEDS,
binding only `a = 1` — `dict(zip(...))` silently drops the surplus value
and the `except TypeError` handler never fires. -/
theorem c5_count_mismatch_silently_truncated :
    psResult (parse_struct c5_schema c5_stream (-1) true 10) =
      .ok ([("a", (.int 1, ['B'], 1))], 0, 2) := rfl

/-- C6 counterexample: the claim says an out-of-range back-reference index
fails with the typed grammar error (`MalformedGrammar`, i.e. the
repository's `InvalidFormat`).  Lexing `B(2)B` — index 2 with only one
decoded value — fails with Python's unclassified `IndexError` instead,
which is a different error kind. -/
theorem c6_out_of_range_is_index_error :
    lexResult (runParse true 10 (mkLexState (c6_schema "B(2)B".toList) c6_stream)) =
      .error .indexError ∧ PyErr.indexError ≠ PyErr.invalidFormat :=
  ⟨rfl, by decide⟩

/-- C6 amended: every malformed back-reference still makes lexing fail,
but only the back-reference-at-grammar-start case raises the typed
`InvalidFormat`; an empty or non-numeric index raises `ValueError`
(`int(...)`), an out-of-range index raises `IndexError` (list indexing),
and a non-integer referenced value raises `TypeError` (`range(...)`) for
array codes or `struct.error` (format-string interpolation) for code
`s`. -/
theorem c6_malformed_backref_errors :
    lexResult (runParse true 10 (mkLexState (c6_schema "(0)B".toList) c6_stream)) =
      .error .invalidFormat ∧
    lexResult (runParse true 10 (mkLexState (c6_schema "B()B".toList) c6_stream)) =
      .error .valueError ∧
    lexResult (runParse true 10 (mkLexState (c6_schema "B(x)B".toList) c6_stream)) =
      .error .valueError ∧
    lexResult (runParse true 10 (mkLexState (c6_schema "B(5)B".toList) c6_stream)) =
      .error .indexError ∧
    lexResult (runParse true 10 (mkLexState (c6_schema "4s(0)I".toList) c6_stream)) =
      .error .typeError ∧
    lexResult (runParse true 10 (mkLexState (c6_schema "4s(0)s".toList) c6_stream)) =
      .error .structError :=
  ⟨rfl, rfl, rfl, rfl, rfl, rfl⟩

/-- C4 fixture: grammar `B(0)` followed by the given code, over the single
byte 00, so the back-reference resolves to the decoded value 0. -/
def c4_schema (c : Char) : SchemaT :=
  .mk "C4" [("a", .plain), ("b", .plain)] ('B' :: '(' :: '0' :: ')' :: [c]) true

/-- C4 fixture: one zero byte. -/
def c4_stream : ByteStream :=
  mkStream [0]

/-- C4 fixture: the grammar prefix `B` alone, to count its read calls. -/
def c4_prefix_schema : SchemaT :=
  .mk "C4p" [("a", .plain)] "B".toList true

/-- C4 counterexample: the claim says a zero-valued back-reference "never
performs a read" and appends a null placeholder for every primitive code
including `s`.  Decoding `B(0)s` issues TWO read calls (versus one for
the prefix `B` alone): the `(0)s` token goes through the plain struct
path, calling `stream.read(0)` and storing the empty byte string — not
the `None` placeholder and not zero read calls. -/
theorem c4_zero_backref_s_issues_read :
    lexResult (runParse true 10 (mkLexState (c4_schema 's') c4_stream)) =
      .ok ([(.int 0, ['B'], 1), (.bytes [], ['s'], 0)], 1, 2) ∧
    lexResult (runParse true 10 (mkLexState c4_prefix_schema c4_stream)) =
      .ok ([(.int 0, ['B'], 1)], 1, 1) :=
  ⟨rfl, rfl⟩

/-- The non-`s` format characters of the model's universe. -/
def c4_codes : List Char :=
  ['B', 'b', 'H', 'h', 'I', 'i', 'Q', 'q', 'U', 'V', 'S', 'T']

/-- C4 amended: a back-reference token whose referenced value is 0
consumes zero bytes, appends exactly one entry of byte size 0, and never
raises (bridge present); for every non-`s` code the entry is the `None`
placeholder and no read call is issued, while for code `s` the engine
issues one zero-length read call and stores the empty byte string. -/
theorem c4_zero_backref_amended :
    (∀ c ∈ c4_codes,
      lexResult (runParse true 10 (mkLexState (c4_schema c) c4_stream)) =
        .ok ([(.int 0, ['B'], 1), (.none_, [c], 0)], 1, 1)) ∧
    lexResult (runParse true 10 (mkLexState (c4_schema 's') c4_stream)) =
      .ok ([(.int 0, ['B'], 1), (.bytes [], ['s'], 0)], 1, 2) := by
  refine ⟨?_, rfl⟩
  intro c hc
  fin_cases hc <;> rfl

/-- C4 witness: the amended theorem applied at code `I`. -/
theorem c4_zero_backref_amended_witness :
    lexResult (runParse true 10 (mkLexState (c4_schema 'I') c4_stream)) =
      .ok ([(.int 0, ['B'], 1), (.none_, ['I'], 0)], 1, 1) :=
  c4_zero_backref_amended.1 'I' (by decide)

/-- Helper for C7: when base and derived annotation names are disjoint,
Python's dict update is plain concatenation, base entries first. -/
theorem dictUpdate_of_disjoint (b own : List Ann)
    (h : ∀ a ∈ b, ∀ o ∈ own, a.name ≠ o.name) :
    dictUpdate b own = b ++ own := by
  unfold dictUpdate
  have h1 : (b.map fun a =>
      match own.find? (fun o => o.name = a.name) with
      | some o => o
      | none => a) = b := by
    induction b with
    | nil => rfl
    | cons a bs ih =>
      have hfind : own.find? (fun o => o.name = a.name) = none := by
        rw [List.find?_eq_none]
        intro o ho
        simp only [decide_eq_true_eq]
        exact fun hEq => h a (List.mem_cons_self a bs) o ho hEq.symm
      simp only [List.map_cons, hfind]
      rw [ih (fun a' ha' o ho => h a' (List.mem_cons_of_mem _ ha') o ho)]
  have h2 : own.filter (fun o => !(b.any (fun a => a.name = o.name))) = own := by
    rw [List.filter_eq_self]
    intro o ho
    simp only [Bool.not_eq_true', List.any_eq_false, decide_eq_true_eq]
    exact fun a ha => h a ha o ho
  rw [h1, h2]

/-- C7: composing a derived schema over a base concatenates the grammars
(base first) and the composed dataclass field list is the base's
dataclass fields followed by the derived ones (given distinct annotation
names, as any valid dataclass hierarchy has); the synthetic
(init-only/class-variable) annotations do not survive composition, while
a schema composed without a base (the base class itself) keeps them. -/
theorem c7_compose_base_first (bAnns own : List Ann) (g frag : List Char)
    (h : ∀ a ∈ bAnns, ∀ o ∈ own, a.name ≠ o.name) :
    composePrimitiveFormat (some g) frag = g ++ frag ∧
    gen_superclass_annotations (some bAnns) own =
      dataclassFields bAnns ++ dataclassFields own ∧
    gen_superclass_annotations none bAnns = bAnns := by
  refine ⟨rfl, ?_, rfl⟩
  show (dictUpdate bAnns own).filter (fun a => !a.synthetic) = _
  rw [dictUpdate_of_disjoint bAnns own h, List.filter_append]
  rfl

/-- C7 witness: the composition theorem applied to a base with one plain
field `x` and one init-only annotation `v`, and a derived fragment with
one plain field `y`, grammars `I` and `H`. -/
theorem c7_compose_base_first_witness :
    composePrimitiveFormat (some "I".toList) "H".toList = "I".toList ++ "H".toList ∧
    gen_superclass_annotations (some [⟨"x", .plain⟩, ⟨"v", .initVar⟩]) [⟨"y", .plain⟩] =
      dataclassFields [⟨"x", .plain⟩, ⟨"v", .initVar⟩] ++ dataclassFields [⟨"y", .plain⟩] ∧
    gen_superclass_annotations none [⟨"x", .plain⟩, ⟨"v", .initVar⟩] =
      [⟨"x", .plain⟩, ⟨"v", .initVar⟩] :=
  c7_compose_base_first [⟨"x", .plain⟩, ⟨"v", .initVar⟩] [⟨"y", .plain⟩]
    "I".toList "H".toList (by decide)

/-- C8: a successful `parse_struct` call leaves the reader where it was:
whatever offset was supplied and wherever the lexer's reads moved the
cursor, the final `stream.seek(stream_pos)` restores the entry position,
so the returned stream's cursor equals the caller's. -/
theorem c8_position_restored (sc : SchemaT) (stream : ByteStream) (offset : Int)
    (hasLeb : Bool) (fuel : Nat) (binds : List (String × Entry)) (s' : ByteStream)
    (h : parse_struct sc stream offset hasLeb fuel = .ok (binds, s')) :
    s'.pos = stream.pos := by
  unfold parse_struct at h
  cases hr : runParse hasLeb fuel
      (mkLexState sc (if offset > -1 then stream.seek offset.toNat else stream)) with
  | error e => rw [hr] at h; exact absurd h (by simp)
  | ok st =>
    rw [hr] at h
    simp only [Except.ok.injEq, Prod.mk.injEq] at h
    obtain ⟨-, h2⟩ := h
    subst h2
    rfl

/-- C8 fixture: a one-byte-field schema. -/
def c8_schema : SchemaT :=
  .mk "C8" [("a", .plain)] "B".toList true

/-- C8 fixture: two bytes, cursor at 0. -/
def c8_stream : ByteStream :=
  mkStream [9, 7]

/-- C8 witness: decoding `c8_schema` at explicit offset 1 reads the byte 7
and returns with the cursor restored to 0 — the theorem applied at this
concrete successful call. -/
theorem c8_position_restored_witness :
    (ByteStream.mk [9, 7] 0 1).pos = c8_stream.pos :=
  c8_position_restored c8_schema c8_stream 1 true 10
    [("a", (.int 7, ['B'], 1))] (ByteStream.mk [9, 7] 0 1) rfl

/-- C9 counterexample: the claim says enum replacement during metadata
collection never raises and unmatched integers resolve to a sentinel for
EVERY enum-typed field.  For an enumeration that defines no `_missing_`
hook, the raw value 99 (not among the members 0, 1, 2) makes
`field.type(field_value)` raise `ValueError`, which propagates out of
`collect_metadata`. -/
theorem c9_enum_without_missing_raises :
    collect_metadata [("f", .enumTy [0, 1, 2] none, some (.int 99, ['B'], 1))] =
      .error .valueError := rfl

/-- C9 amended: for an enum-typed field whose enumeration defines a
`_missing_` hook returning a sentinel (as every enumeration shipped in
the repository's example does), metadata collection replaces a matching
raw integer by the mapped constant and any unmatched integer by the
sentinel, and never raises. -/
theorem c9_enum_with_missing_resolves (nm : String) (cs : List Int) (s v : Int)
    (fmt : List Char) (size : Nat) :
    collect_metadata [(nm, .enumTy cs (some s), some (.int v, fmt, size))] =
      .ok ([(nm, fmt, size, .int (if v ∈ cs then v else s))],
           [(nm, .int (if v ∈ cs then v else s))]) := by
  by_cases h : v ∈ cs <;>
    simp [collect_metadata, processField, pyEnumCall, h]

/-- C10: in the modular snapshot, metadata collection over a record that
contains a nested-record (wrapped-class typed) field with a bound value
never succeeds: reaching the field fails the `getattr(field.type,
"_lexer")` lookup (no wrapped class defines `_lexer`), and any earlier
field either also fails or passes control on to it. -/
theorem c10_nested_field_metadata_always_fails
    (items : List (String × FieldTy × Option Entry)) (nm : String)
    (sub : SchemaT) (e : Entry)
    (h : (nm, FieldTy.nestedTy sub, some e) ∈ items) :
    exceptIsOk (collect_metadata items) = false := by
  induction items with
  | nil => cases h
  | cons x rest ih =>
    rcases List.mem_cons.mp h with hx | hrest
    · subst hx
      obtain ⟨v, fmt, size⟩ := e
      rfl
    · obtain ⟨nm', fty', ent⟩ := x
      cases ent with
      | none =>
        cases hrec : collect_metadata rest with
        | error e' => simp [collect_metadata, hrec, exceptIsOk]
        | ok pr => exact absurd (hrec ▸ ih hrest) (by simp [exceptIsOk])
      | some entv =>
        obtain ⟨v, fmt, size⟩ := entv
        cases hpf : processField fty' v fmt size with
        | error e' => simp [collect_metadata, hpf, exceptIsOk]
        | ok out =>
          obtain ⟨fmt', size', cv⟩ := out
          cases hrec : collect_metadata rest with
          | error e' => simp [collect_metadata, hpf, hrec, exceptIsOk]
          | ok pr => exact absurd (hrec ▸ ih hrest) (by simp [exceptIsOk])

/-- C10 fixture: a nested schema with one plain byte field. -/
def c10_inner : SchemaT :=
  .mk "C10Inner" [("f", .plain)] "B".toList true

/-- C10 fixture: a record with a single nested-record field bound to a
decoded nested value. -/
def c10_items : List (String × FieldTy × Option Entry) :=
  [("n", .nestedTy c10_inner, some (.nested [("f", .int 1)], ['B'], 1))]

/-- C10 witness: the theorem applied to the concrete one-nested-field
record. -/
theorem c10_nested_field_metadata_always_fails_witness :
    exceptIsOk (collect_metadata c10_items) = false :=
  c10_nested_field_metadata_always_fails c10_items "n" c10_inner
    (.nested [("f", .int 1)], ['B'], 1) (List.Mem.head _)

/-- C9 witness: the amended theorem applied to the enumeration with
members 0, 1, 2 and sentinel 0, at the unmatched raw value 99. -/
theorem c9_enum_with_missing_resolves_witness :
    collect_metadata [("f", .enumTy [0, 1, 2] (some 0), some (.int 99, ['B'], 1))] =
      .ok ([("f", ['B'], 1, .int (if (99 : Int) ∈ ([0, 1, 2] : List Int) then 99 else 0))],
           [("f", .int (if (99 : Int) ∈ ([0, 1, 2] : List Int) then 99 else 0))]) :=
  c9_enum_with_missing_resolves "f" [0, 1, 2] 0 99 ['B'] 1
